import Mathlib

/-!
Shallow embedding of the CHIP-8 interpreter found in src/main.rs.

Modelling conventions:
- Machine integers are Nat with explicit reduction where the source's
  Rust types wrap: 8-bit cells reduce modulo 256, 16-bit registers
  modulo 65536 (Rust `wrapping_add` / `overflowing_add` semantics; the
  plain `+=` on u16 registers would panic on overflow in a debug build,
  which no modelled operation reaches under the stated hypotheses).
- Rust panics are modelled as Option.none: `Vec::pop().unwrap()` on an
  empty vector and out-of-bounds array indexing both return none.
- Memory `[u8; 4096]` is a `List Nat`; the constructors of the machine
  always build it with length 4096, and a read past the end
  (`List.get?` returning none) is the index-out-of-bounds panic.
- The stack `Vec<u16>` is a `List Nat` in the same order as the vector:
  `push` appends at the end, `pop` removes the last element.
- The bit masks of the decoder translate to arithmetic on Nat:
  `opcode & 0xF000` dispatch corresponds to the family nibble
  `opcode / 4096 % 16`; `(opcode >> 8) & 0x0F` is `opcode / 256 % 16`;
  `(opcode >> 4) & 0x0F` is `opcode / 16 % 16`; `opcode & 0x00FF` is
  `opcode % 256`; `opcode & 0x0FFF` is `opcode % 4096`;
  `opcode & 0x000F` is `opcode % 16`. These coincide with the Rust
  expressions on every u16 word.
-/

namespace Chip8

/-- The source's `struct Registers`: sixteen 8-bit general registers,
the 16-bit index register I and the 16-bit program counter PC. -/
structure Registers where
  V0 : Nat
  V1 : Nat
  V2 : Nat
  V3 : Nat
  V4 : Nat
  V5 : Nat
  V6 : Nat
  V7 : Nat
  V8 : Nat
  V9 : Nat
  VA : Nat
  VB : Nat
  VC : Nat
  VD : Nat
  VE : Nat
  VF : Nat
  I : Nat
  PC : Nat
deriving DecidableEq

/-- `Registers::new`: every register starts at zero. -/
def Registers.new : Registers :=
  { V0 := 0, V1 := 0, V2 := 0, V3 := 0, V4 := 0, V5 := 0, V6 := 0, V7 := 0,
    V8 := 0, V9 := 0, VA := 0, VB := 0, VC := 0, VD := 0, VE := 0, VF := 0,
    I := 0, PC := 0 }

/-- The source's `enum Target_Register`: identifiers for the sixteen
general registers plus the index register and the program counter. -/
inductive Target_Register where
  | V0 | V1 | V2 | V3 | V4 | V5 | V6 | V7
  | V8 | V9 | VA | VB | VC | VD | VE | VF
  | I
  | PC
deriving DecidableEq

/-- `Target_Register::u8_to_register`: nibble values 0x0..0xF name the
general registers; every other value falls to the PC identifier
(a TODO in the source). -/
def Target_Register.u8_to_register (value : Nat) : Target_Register :=
  match value with
  | 0x0 => .V0
  | 0x1 => .V1
  | 0x2 => .V2
  | 0x3 => .V3
  | 0x4 => .V4
  | 0x5 => .V5
  | 0x6 => .V6
  | 0x7 => .V7
  | 0x8 => .V8
  | 0x9 => .V9
  | 0xA => .VA
  | 0xB => .VB
  | 0xC => .VC
  | 0xD => .VD
  | 0xE => .VE
  | 0xF => .VF
  | _ => .PC

/-- The source's `struct Timers`: the two 8-bit countdown timers. -/
structure Timers where
  delay : Nat
  sound : Nat
deriving DecidableEq

/-- `Timers::new`: both timers start at zero. -/
def Timers.new : Timers :=
  { delay := 0, sound := 0 }

/-- The source's `enum Instruction`: one constructor per decoded
instruction variant, with the operand fields of the Rust enum. -/
inductive Instruction where
  | NOP
  | CallNative (address : Nat)
  | Display
  | Return
  | JUMP (address : Nat)
  | Call (address : Nat)
  | SKEQ (register : Target_Register) (value : Nat)
  | SKNEQ (register : Target_Register) (value : Nat)
  | SKREQ (register1 : Target_Register) (register2 : Target_Register)
  | SET (register : Target_Register) (value : Nat)
  | ADD (register : Target_Register) (value : Nat)
  | COPYR (register1 : Target_Register) (register2 : Target_Register)
  | OR (register1 : Target_Register) (register2 : Target_Register)
  | AND (register1 : Target_Register) (register2 : Target_Register)
  | XOR (register1 : Target_Register) (register2 : Target_Register)
  | ADDR (register1 : Target_Register) (register2 : Target_Register)
  | SUBX (register1 : Target_Register) (register2 : Target_Register)
  | SHFTR (register1 : Target_Register) (register2 : Target_Register)
  | SUBY (register1 : Target_Register) (register2 : Target_Register)
  | SHFTL (register1 : Target_Register) (register2 : Target_Register)
  | SKRNEQ (register1 : Target_Register) (register2 : Target_Register)
  | SETI (value : Nat)
  | JMP0 (address : Nat)
  | RAND (register : Target_Register) (value : Nat)
  | DRAW (register1 : Target_Register) (register2 : Target_Register) (height : Nat)
  | SKKEQ (register : Target_Register)
  | SKKNEQ (register : Target_Register)
  | SETXD (register : Target_Register)
  | STORE (register : Target_Register)
  | SETD (register : Target_Register)
  | SETS (register : Target_Register)
  | ADDI (register : Target_Register)
  | SPRITE (register : Target_Register)
  | BCD (register : Target_Register)
  | DUMP (register : Target_Register)
  | LOAD (register : Target_Register)
deriving DecidableEq

/-- The source's `struct CPU`. -/
structure CPU where
  registers : Registers
  memory : List Nat
  stack : List Nat
  timers : Timers
deriving DecidableEq

/-- `CPU::new`: zeroed registers, a 4096-byte zero memory, a stack built
as `vec![0u16; 16]` (sixteen entries, each 0 — not an empty vector), and
zeroed timers. -/
def CPU.new : CPU :=
  { registers := Registers.new,
    memory := List.replicate 4096 0,
    stack := List.replicate 16 0,
    timers := Timers.new }

/-- `CPU::parse_opcode`: decode a 16-bit instruction word. The source
presets a mutable default of `JUMP { address: 0x200 }` and overwrites it
when a pattern matches; every unmatched word only logs to stderr and
keeps the preset default — there is no failure variant in the
Instruction enum. The cascaded Rust matches are rendered as ordered
if-chains over the arithmetic nibble/byte fields (see the file header
for the mask-to-arithmetic correspondence). -/
def parse_opcode (opcode : Nat) : Instruction :=
  let fam := opcode / 4096 % 16
  let x := Target_Register.u8_to_register (opcode / 256 % 16)
  let y := Target_Register.u8_to_register (opcode / 16 % 16)
  if fam = 0x0 then
    if opcode = 0x0000 then .NOP
    else if opcode = 0x00E0 then .Display
    else if opcode = 0x00EE then .Return
    else .JUMP 0x200
  else if fam = 0x1 then .JUMP (opcode % 4096)
  else if fam = 0x2 then .Call (opcode % 4096)
  else if fam = 0x3 then .SKEQ x (opcode % 256)
  else if fam = 0x4 then .SKNEQ x (opcode % 256)
  else if fam = 0x5 then .SKREQ x y
  else if fam = 0x6 then .SET x (opcode % 256)
  else if fam = 0x7 then .ADD x (opcode % 256)
  else if fam = 0x8 then
    let sub := opcode % 16
    if sub = 0x0 then .COPYR x y
    else if sub = 0x1 then .OR x y
    else if sub = 0x2 then .AND x y
    else if sub = 0x3 then .XOR x y
    else if sub = 0x4 then .ADDR x y
    else if sub = 0x5 then .SUBX x y
    else if sub = 0x6 then .SHFTR x y
    else if sub = 0x7 then .SUBY x y
    else if sub = 0xE then .SHFTL x y
    else .JUMP 0x200
  else if fam = 0x9 then .SKRNEQ x y
  else if fam = 0xA then .SETI (opcode % 4096)
  else if fam = 0xB then .JMP0 (opcode % 4096)
  else if fam = 0xC then .RAND x (opcode % 256)
  else if fam = 0xD then .DRAW x y (opcode % 16)
  else if fam = 0xE then
    let sub := opcode % 256
    if sub = 0x9E then .SKKEQ x
    else if sub = 0xA1 then .SKKNEQ x
    else .JUMP 0x200
  else if fam = 0xF then
    let sub := opcode % 256
    if sub = 0x07 then .SETXD x
    else if sub = 0x0A then .STORE x
    else if sub = 0x15 then .SETD x
    else if sub = 0x18 then .SETS x
    else if sub = 0x1E then .ADDI x
    else if sub = 0x29 then .SPRITE x
    else if sub = 0x33 then .BCD x
    else if sub = 0x55 then .DUMP x
    else if sub = 0x65 then .LOAD x
    else .JUMP 0x200
  else .JUMP 0x200

/-- `CPU::initialize` (rendered here as `initMachine`): re-zero every
register by xor-ing it with itself, re-zero the memory and rebuild the
stack as sixteen zero entries. The `timers` field is not touched by the
source routine. -/
def initMachine (s : CPU) : CPU :=
  { s with
    registers :=
      { V0 := s.registers.V0 ^^^ s.registers.V0,
        V1 := s.registers.V1 ^^^ s.registers.V1,
        V2 := s.registers.V2 ^^^ s.registers.V2,
        V3 := s.registers.V3 ^^^ s.registers.V3,
        V4 := s.registers.V4 ^^^ s.registers.V4,
        V5 := s.registers.V5 ^^^ s.registers.V5,
        V6 := s.registers.V6 ^^^ s.registers.V6,
        V7 := s.registers.V7 ^^^ s.registers.V7,
        V8 := s.registers.V8 ^^^ s.registers.V8,
        V9 := s.registers.V9 ^^^ s.registers.V9,
        VA := s.registers.VA ^^^ s.registers.VA,
        VB := s.registers.VB ^^^ s.registers.VB,
        VC := s.registers.VC ^^^ s.registers.VC,
        VD := s.registers.VD ^^^ s.registers.VD,
        VE := s.registers.VE ^^^ s.registers.VE,
        VF := s.registers.VF ^^^ s.registers.VF,
        I := s.registers.I ^^^ s.registers.I,
        PC := s.registers.PC ^^^ s.registers.PC },
    memory := List.replicate 4096 0,
    stack := List.replicate 16 0 }

/-- The loop body of `CPU::load_rom`: write the image bytes one at a
time into memory starting at `addr`; a write past the end of the array
is the Rust index-out-of-bounds panic, modelled as none. -/
def storeBytes (mem : List Nat) (addr : Nat) (bytes : List Nat) : Option (List Nat) :=
  match bytes with
  | [] => some mem
  | b :: rest =>
    if addr < mem.length then storeBytes (mem.set addr b) (addr + 1) rest
    else none

/-- `CPU::load_rom`, after the file has been read into a byte list:
copy the bytes to memory starting at 0x200 (no size check in the
source), then set PC to 0x200. none is the out-of-bounds write panic. -/
def load_rom (s : CPU) (rom : List Nat) : Option CPU :=
  match storeBytes s.memory 0x200 rom with
  | none => none
  | some m =>
    some { s with memory := m, registers := { s.registers with PC := 0x200 } }

/-- `CPU::fetch_instruction`: read the big-endian word at PC and advance
PC by two (two u16 increments, each reduced modulo 65536); a read past
the end of memory is the index panic, modelled as none. The returned
word `hi << 8 | lo` over u8 bytes is `hi % 256 * 256 + lo % 256`. -/
def fetch_instruction (s : CPU) : Option (Nat × CPU) :=
  match s.memory.get? s.registers.PC with
  | none => none
  | some hi =>
    let pc1 := (s.registers.PC + 1) % 65536
    match s.memory.get? pc1 with
    | none => none
    | some lo =>
      some (hi % 256 * 256 + lo % 256,
        { s with registers := { s.registers with PC := (pc1 + 1) % 65536 } })

/-- The sixteen-arm general-register read that the source repeats inside
SKREQ, COPYR, OR, AND, XOR, ADDR and SKRNEQ: the V registers are read
directly, and the commented-out I and PC arms fall to the catch-all 0. -/
def readV (s : CPU) (t : Target_Register) : Nat :=
  match t with
  | .V0 => s.registers.V0
  | .V1 => s.registers.V1
  | .V2 => s.registers.V2
  | .V3 => s.registers.V3
  | .V4 => s.registers.V4
  | .V5 => s.registers.V5
  | .V6 => s.registers.V6
  | .V7 => s.registers.V7
  | .V8 => s.registers.V8
  | .V9 => s.registers.V9
  | .VA => s.registers.VA
  | .VB => s.registers.VB
  | .VC => s.registers.VC
  | .VD => s.registers.VD
  | .VE => s.registers.VE
  | .VF => s.registers.VF
  | _ => 0

/-- Statement-side helper: the value held by any register identifier
(also defined on I and PC, unlike the source's catch-all reads). -/
def regVal (r : Registers) (t : Target_Register) : Nat :=
  match t with
  | .V0 => r.V0
  | .V1 => r.V1
  | .V2 => r.V2
  | .V3 => r.V3
  | .V4 => r.V4
  | .V5 => r.V5
  | .V6 => r.V6
  | .V7 => r.V7
  | .V8 => r.V8
  | .V9 => r.V9
  | .VA => r.VA
  | .VB => r.VB
  | .VC => r.VC
  | .VD => r.VD
  | .VE => r.VE
  | .VF => r.VF
  | .I => r.I
  | .PC => r.PC

/-- `CPU::_Call` (0NNN): unimplemented in the source — the body is a
TODO comment, so the state is returned unchanged. -/
def CPU.CallNative (s : CPU) (_address : Nat) : CPU := s

/-- `CPU::Display` (00E0): unimplemented in the source (TODO). -/
def CPU.Display (s : CPU) : CPU := s

/-- `CPU::Return` (00EE): `self.registers.PC = self.stack.pop().unwrap()`.
Popping the last element of an empty vector makes `unwrap` panic,
modelled as none (the source carries the comment that this should be
handled better than unwrapping). -/
def CPU.Return (s : CPU) : Option CPU :=
  match s.stack.getLast? with
  | none => none
  | some a =>
    some { s with registers := { s.registers with PC := a }, stack := s.stack.dropLast }

/-- `CPU::JUMP` (1NNN): PC := address. -/
def CPU.JUMP (s : CPU) (address : Nat) : CPU :=
  { s with registers := { s.registers with PC := address } }

/-- `CPU::Call` (2NNN): push the current PC on the stack (no capacity
check in the source — `Vec::push` never fails), then PC := address. -/
def CPU.Call (s : CPU) (address : Nat) : CPU :=
  { s with
    stack := s.stack ++ [s.registers.PC],
    registers := { s.registers with PC := address } }

/-- `CPU::SKEQ` (3XNN): skip the next instruction word (PC += 2) when
the named register equals the immediate; the I and PC arms compare at
the register's native width. -/
def CPU.SKEQ (s : CPU) (register : Target_Register) (value : Nat) : CPU :=
  let comp_val : Bool :=
    match register with
    | .V0 => if s.registers.V0 = value then true else false
    | .V1 => if s.registers.V1 = value then true else false
    | .V2 => if s.registers.V2 = value then true else false
    | .V3 => if s.registers.V3 = value then true else false
    | .V4 => if s.registers.V4 = value then true else false
    | .V5 => if s.registers.V5 = value then true else false
    | .V6 => if s.registers.V6 = value then true else false
    | .V7 => if s.registers.V7 = value then true else false
    | .V8 => if s.registers.V8 = value then true else false
    | .V9 => if s.registers.V9 = value then true else false
    | .VA => if s.registers.VA = value then true else false
    | .VB => if s.registers.VB = value then true else false
    | .VC => if s.registers.VC = value then true else false
    | .VD => if s.registers.VD = value then true else false
    | .VE => if s.registers.VE = value then true else false
    | .VF => if s.registers.VF = value then true else false
    | .I => if s.registers.I = value then true else false
    | .PC => if s.registers.PC = value then true else false
  if comp_val then
    { s with registers := { s.registers with PC := (s.registers.PC + 2) % 65536 } }
  else s

/-- `CPU::SKNEQ` (4XNN): skip when the named register differs from the
immediate. -/
def CPU.SKNEQ (s : CPU) (register : Target_Register) (value : Nat) : CPU :=
  let comp_val : Bool :=
    match register with
    | .V0 => if s.registers.V0 ≠ value then true else false
    | .V1 => if s.registers.V1 ≠ value then true else false
    | .V2 => if s.registers.V2 ≠ value then true else false
    | .V3 => if s.registers.V3 ≠ value then true else false
    | .V4 => if s.registers.V4 ≠ value then true else false
    | .V5 => if s.registers.V5 ≠ value then true else false
    | .V6 => if s.registers.V6 ≠ value then true else false
    | .V7 => if s.registers.V7 ≠ value then true else false
    | .V8 => if s.registers.V8 ≠ value then true else false
    | .V9 => if s.registers.V9 ≠ value then true else false
    | .VA => if s.registers.VA ≠ value then true else false
    | .VB => if s.registers.VB ≠ value then true else false
    | .VC => if s.registers.VC ≠ value then true else false
    | .VD => if s.registers.VD ≠ value then true else false
    | .VE => if s.registers.VE ≠ value then true else false
    | .VF => if s.registers.VF ≠ value then true else false
    | .I => if s.registers.I ≠ value then true else false
    | .PC => if s.registers.PC ≠ value then true else false
  if comp_val then
    { s with registers := { s.registers with PC := (s.registers.PC + 2) % 65536 } }
  else s

/-- `CPU::SKREQ` (5XY0): skip when the two named registers are equal;
both reads fall to 0 on the I and PC identifiers (source TODO). -/
def CPU.SKREQ (s : CPU) (register1 register2 : Target_Register) : CPU :=
  let r1 := readV s register1
  let r2 := readV s register2
  if r1 = r2 then
    { s with registers := { s.registers with PC := (s.registers.PC + 2) % 65536 } }
  else s

/-- `CPU::SET` (6XNN): write the immediate to the named register (the I
and PC arms store the zero-extended byte). -/
def CPU.SET (s : CPU) (register : Target_Register) (value : Nat) : CPU :=
  match register with
  | .V0 => { s with registers := { s.registers with V0 := value } }
  | .V1 => { s with registers := { s.registers with V1 := value } }
  | .V2 => { s with registers := { s.registers with V2 := value } }
  | .V3 => { s with registers := { s.registers with V3 := value } }
  | .V4 => { s with registers := { s.registers with V4 := value } }
  | .V5 => { s with registers := { s.registers with V5 := value } }
  | .V6 => { s with registers := { s.registers with V6 := value } }
  | .V7 => { s with registers := { s.registers with V7 := value } }
  | .V8 => { s with registers := { s.registers with V8 := value } }
  | .V9 => { s with registers := { s.registers with V9 := value } }
  | .VA => { s with registers := { s.registers with VA := value } }
  | .VB => { s with registers := { s.registers with VB := value } }
  | .VC => { s with registers := { s.registers with VC := value } }
  | .VD => { s with registers := { s.registers with VD := value } }
  | .VE => { s with registers := { s.registers with VE := value } }
  | .VF => { s with registers := { s.registers with VF := value } }
  | .I => { s with registers := { s.registers with I := value } }
  | .PC => { s with registers := { s.registers with PC := value } }

/-- `CPU::ADD` (7XNN): `wrapping_add` of the immediate into the named
register, carry flag untouched; the I and PC arms use the plain u16
`+=` (modelled modulo 65536). -/
def CPU.ADD (s : CPU) (register : Target_Register) (value : Nat) : CPU :=
  match register with
  | .V0 => { s with registers := { s.registers with V0 := (s.registers.V0 + value) % 256 } }
  | .V1 => { s with registers := { s.registers with V1 := (s.registers.V1 + value) % 256 } }
  | .V2 => { s with registers := { s.registers with V2 := (s.registers.V2 + value) % 256 } }
  | .V3 => { s with registers := { s.registers with V3 := (s.registers.V3 + value) % 256 } }
  | .V4 => { s with registers := { s.registers with V4 := (s.registers.V4 + value) % 256 } }
  | .V5 => { s with registers := { s.registers with V5 := (s.registers.V5 + value) % 256 } }
  | .V6 => { s with registers := { s.registers with V6 := (s.registers.V6 + value) % 256 } }
  | .V7 => { s with registers := { s.registers with V7 := (s.registers.V7 + value) % 256 } }
  | .V8 => { s with registers := { s.registers with V8 := (s.registers.V8 + value) % 256 } }
  | .V9 => { s with registers := { s.registers with V9 := (s.registers.V9 + value) % 256 } }
  | .VA => { s with registers := { s.registers with VA := (s.registers.VA + value) % 256 } }
  | .VB => { s with registers := { s.registers with VB := (s.registers.VB + value) % 256 } }
  | .VC => { s with registers := { s.registers with VC := (s.registers.VC + value) % 256 } }
  | .VD => { s with registers := { s.registers with VD := (s.registers.VD + value) % 256 } }
  | .VE => { s with registers := { s.registers with VE := (s.registers.VE + value) % 256 } }
  | .VF => { s with registers := { s.registers with VF := (s.registers.VF + value) % 256 } }
  | .I => { s with registers := { s.registers with I := (s.registers.I + value) % 65536 } }
  | .PC => { s with registers := { s.registers with PC := (s.registers.PC + value) % 65536 } }

/-- `CPU::COPYR` (8XY0): copy register2 into register1; reads of I/PC
fall to 0 and writes to I/PC are a no-op (source TODOs). -/
def CPU.COPYR (s : CPU) (register1 register2 : Target_Register) : CPU :=
  let r2 := readV s register2
  match register1 with
  | .V0 => { s with registers := { s.registers with V0 := r2 } }
  | .V1 => { s with registers := { s.registers with V1 := r2 } }
  | .V2 => { s with registers := { s.registers with V2 := r2 } }
  | .V3 => { s with registers := { s.registers with V3 := r2 } }
  | .V4 => { s with registers := { s.registers with V4 := r2 } }
  | .V5 => { s with registers := { s.registers with V5 := r2 } }
  | .V6 => { s with registers := { s.registers with V6 := r2 } }
  | .V7 => { s with registers := { s.registers with V7 := r2 } }
  | .V8 => { s with registers := { s.registers with V8 := r2 } }
  | .V9 => { s with registers := { s.registers with V9 := r2 } }
  | .VA => { s with registers := { s.registers with VA := r2 } }
  | .VB => { s with registers := { s.registers with VB := r2 } }
  | .VC => { s with registers := { s.registers with VC := r2 } }
  | .VD => { s with registers := { s.registers with VD := r2 } }
  | .VE => { s with registers := { s.registers with VE := r2 } }
  | .VF => { s with registers := { s.registers with VF := r2 } }
  | _ => s

/-- `CPU::OR` (8XY1): register1 |= register2, same catch-alls as COPYR. -/
def CPU.OR (s : CPU) (register1 register2 : Target_Register) : CPU :=
  let r2 := readV s register2
  match register1 with
  | .V0 => { s with registers := { s.registers with V0 := s.registers.V0 ||| r2 } }
  | .V1 => { s with registers := { s.registers with V1 := s.registers.V1 ||| r2 } }
  | .V2 => { s with registers := { s.registers with V2 := s.registers.V2 ||| r2 } }
  | .V3 => { s with registers := { s.registers with V3 := s.registers.V3 ||| r2 } }
  | .V4 => { s with registers := { s.registers with V4 := s.registers.V4 ||| r2 } }
  | .V5 => { s with registers := { s.registers with V5 := s.registers.V5 ||| r2 } }
  | .V6 => { s with registers := { s.registers with V6 := s.registers.V6 ||| r2 } }
  | .V7 => { s with registers := { s.registers with V7 := s.registers.V7 ||| r2 } }
  | .V8 => { s with registers := { s.registers with V8 := s.registers.V8 ||| r2 } }
  | .V9 => { s with registers := { s.registers with V9 := s.registers.V9 ||| r2 } }
  | .VA => { s with registers := { s.registers with VA := s.registers.VA ||| r2 } }
  | .VB => { s with registers := { s.registers with VB := s.registers.VB ||| r2 } }
  | .VC => { s with registers := { s.registers with VC := s.registers.VC ||| r2 } }
  | .VD => { s with registers := { s.registers with VD := s.registers.VD ||| r2 } }
  | .VE => { s with registers := { s.registers with VE := s.registers.VE ||| r2 } }
  | .VF => { s with registers := { s.registers with VF := s.registers.VF ||| r2 } }
  | _ => s

/-- `CPU::AND` (8XY2): register1 &= register2. -/
def CPU.AND (s : CPU) (register1 register2 : Target_Register) : CPU :=
  let r2 := readV s register2
  match register1 with
  | .V0 => { s with registers := { s.registers with V0 := s.registers.V0 &&& r2 } }
  | .V1 => { s with registers := { s.registers with V1 := s.registers.V1 &&& r2 } }
  | .V2 => { s with registers := { s.registers with V2 := s.registers.V2 &&& r2 } }
  | .V3 => { s with registers := { s.registers with V3 := s.registers.V3 &&& r2 } }
  | .V4 => { s with registers := { s.registers with V4 := s.registers.V4 &&& r2 } }
  | .V5 => { s with registers := { s.registers with V5 := s.registers.V5 &&& r2 } }
  | .V6 => { s with registers := { s.registers with V6 := s.registers.V6 &&& r2 } }
  | .V7 => { s with registers := { s.registers with V7 := s.registers.V7 &&& r2 } }
  | .V8 => { s with registers := { s.registers with V8 := s.registers.V8 &&& r2 } }
  | .V9 => { s with registers := { s.registers with V9 := s.registers.V9 &&& r2 } }
  | .VA => { s with registers := { s.registers with VA := s.registers.VA &&& r2 } }
  | .VB => { s with registers := { s.registers with VB := s.registers.VB &&& r2 } }
  | .VC => { s with registers := { s.registers with VC := s.registers.VC &&& r2 } }
  | .VD => { s with registers := { s.registers with VD := s.registers.VD &&& r2 } }
  | .VE => { s with registers := { s.registers with VE := s.registers.VE &&& r2 } }
  | .VF => { s with registers := { s.registers with VF := s.registers.VF &&& r2 } }
  | _ => s

/-- `CPU::XOR` (8XY3): register1 ^= register2. -/
def CPU.XOR (s : CPU) (register1 register2 : Target_Register) : CPU :=
  let r2 := readV s register2
  match register1 with
  | .V0 => { s with registers := { s.registers with V0 := s.registers.V0 ^^^ r2 } }
  | .V1 => { s with registers := { s.registers with V1 := s.registers.V1 ^^^ r2 } }
  | .V2 => { s with registers := { s.registers with V2 := s.registers.V2 ^^^ r2 } }
  | .V3 => { s with registers := { s.registers with V3 := s.registers.V3 ^^^ r2 } }
  | .V4 => { s with registers := { s.registers with V4 := s.registers.V4 ^^^ r2 } }
  | .V5 => { s with registers := { s.registers with V5 := s.registers.V5 ^^^ r2 } }
  | .V6 => { s with registers := { s.registers with V6 := s.registers.V6 ^^^ r2 } }
  | .V7 => { s with registers := { s.registers with V7 := s.registers.V7 ^^^ r2 } }
  | .V8 => { s with registers := { s.registers with V8 := s.registers.V8 ^^^ r2 } }
  | .V9 => { s with registers := { s.registers with V9 := s.registers.V9 ^^^ r2 } }
  | .VA => { s with registers := { s.registers with VA := s.registers.VA ^^^ r2 } }
  | .VB => { s with registers := { s.registers with VB := s.registers.VB ^^^ r2 } }
  | .VC => { s with registers := { s.registers with VC := s.registers.VC ^^^ r2 } }
  | .VD => { s with registers := { s.registers with VD := s.registers.VD ^^^ r2 } }
  | .VE => { s with registers := { s.registers with VE := s.registers.VE ^^^ r2 } }
  | .VF => { s with registers := { s.registers with VF := s.registers.VF ^^^ r2 } }
  | _ => s

/-- `CPU::ADDR` (8XY4): `overflowing_add` of register2 into register1
for destinations V0..VE; on u8 operands the result is the sum modulo
256 and the overflow flag is `256 ≤ sum`. VF is set to 1 only when the
addition overflowed, otherwise it keeps its prior value. The VF, I and
PC destination arms are commented out in the source and fall to the
no-op catch-all. -/
def CPU.ADDR (s : CPU) (register1 register2 : Target_Register) : CPU :=
  let r2 := readV s register2
  match register1 with
  | .V0 => { s with registers := { s.registers with
      V0 := (s.registers.V0 + r2) % 256,
      VF := if 256 ≤ s.registers.V0 + r2 then 1 else s.registers.VF } }
  | .V1 => { s with registers := { s.registers with
      V1 := (s.registers.V1 + r2) % 256,
      VF := if 256 ≤ s.registers.V1 + r2 then 1 else s.registers.VF } }
  | .V2 => { s with registers := { s.registers with
      V2 := (s.registers.V2 + r2) % 256,
      VF := if 256 ≤ s.registers.V2 + r2 then 1 else s.registers.VF } }
  | .V3 => { s with registers := { s.registers with
      V3 := (s.registers.V3 + r2) % 256,
      VF := if 256 ≤ s.registers.V3 + r2 then 1 else s.registers.VF } }
  | .V4 => { s with registers := { s.registers with
      V4 := (s.registers.V4 + r2) % 256,
      VF := if 256 ≤ s.registers.V4 + r2 then 1 else s.registers.VF } }
  | .V5 => { s with registers := { s.registers with
      V5 := (s.registers.V5 + r2) % 256,
      VF := if 256 ≤ s.registers.V5 + r2 then 1 else s.registers.VF } }
  | .V6 => { s with registers := { s.registers with
      V6 := (s.registers.V6 + r2) % 256,
      VF := if 256 ≤ s.registers.V6 + r2 then 1 else s.registers.VF } }
  | .V7 => { s with registers := { s.registers with
      V7 := (s.registers.V7 + r2) % 256,
      VF := if 256 ≤ s.registers.V7 + r2 then 1 else s.registers.VF } }
  | .V8 => { s with registers := { s.registers with
      V8 := (s.registers.V8 + r2) % 256,
      VF := if 256 ≤ s.registers.V8 + r2 then 1 else s.registers.VF } }
  | .V9 => { s with registers := { s.registers with
      V9 := (s.registers.V9 + r2) % 256,
      VF := if 256 ≤ s.registers.V9 + r2 then 1 else s.registers.VF } }
  | .VA => { s with registers := { s.registers with
      VA := (s.registers.VA + r2) % 256,
      VF := if 256 ≤ s.registers.VA + r2 then 1 else s.registers.VF } }
  | .VB => { s with registers := { s.registers with
      VB := (s.registers.VB + r2) % 256,
      VF := if 256 ≤ s.registers.VB + r2 then 1 else s.registers.VF } }
  | .VC => { s with registers := { s.registers with
      VC := (s.registers.VC + r2) % 256,
      VF := if 256 ≤ s.registers.VC + r2 then 1 else s.registers.VF } }
  | .VD => { s with registers := { s.registers with
      VD := (s.registers.VD + r2) % 256,
      VF := if 256 ≤ s.registers.VD + r2 then 1 else s.registers.VF } }
  | .VE => { s with registers := { s.registers with
      VE := (s.registers.VE + r2) % 256,
      VF := if 256 ≤ s.registers.VE + r2 then 1 else s.registers.VF } }
  | _ => s

/-- The source operand read of `CPU::SUBX`, whose match also comments
out the VF arm (unlike the read shared by the other binary operations):
only V0..VE are read, everything else falls to 0. -/
def readVnoVF (s : CPU) (t : Target_Register) : Nat :=
  match t with
  | .V0 => s.registers.V0
  | .V1 => s.registers.V1
  | .V2 => s.registers.V2
  | .V3 => s.registers.V3
  | .V4 => s.registers.V4
  | .V5 => s.registers.V5
  | .V6 => s.registers.V6
  | .V7 => s.registers.V7
  | .V8 => s.registers.V8
  | .V9 => s.registers.V9
  | .VA => s.registers.VA
  | .VB => s.registers.VB
  | .VC => s.registers.VC
  | .VD => s.registers.VD
  | .VE => s.registers.VE
  | _ => 0

/-- `CPU::SUBX` (8XY5): `overflowing_sub` of register2 from register1
for destinations V0..VE; on u8 operands the result is
`(a + 256 - b) % 256` and the borrow flag is `a < b`; VF is set to 1
only when the subtraction borrowed, otherwise it keeps its prior
value. -/
def CPU.SUBX (s : CPU) (register1 register2 : Target_Register) : CPU :=
  let r2 := readVnoVF s register2
  match register1 with
  | .V0 => { s with registers := { s.registers with
      V0 := (s.registers.V0 + 256 - r2) % 256,
      VF := if s.registers.V0 < r2 then 1 else s.registers.VF } }
  | .V1 => { s with registers := { s.registers with
      V1 := (s.registers.V1 + 256 - r2) % 256,
      VF := if s.registers.V1 < r2 then 1 else s.registers.VF } }
  | .V2 => { s with registers := { s.registers with
      V2 := (s.registers.V2 + 256 - r2) % 256,
      VF := if s.registers.V2 < r2 then 1 else s.registers.VF } }
  | .V3 => { s with registers := { s.registers with
      V3 := (s.registers.V3 + 256 - r2) % 256,
      VF := if s.registers.V3 < r2 then 1 else s.registers.VF } }
  | .V4 => { s with registers := { s.registers with
      V4 := (s.registers.V4 + 256 - r2) % 256,
      VF := if s.registers.V4 < r2 then 1 else s.registers.VF } }
  | .V5 => { s with registers := { s.registers with
      V5 := (s.registers.V5 + 256 - r2) % 256,
      VF := if s.registers.V5 < r2 then 1 else s.registers.VF } }
  | .V6 => { s with registers := { s.registers with
      V6 := (s.registers.V6 + 256 - r2) % 256,
      VF := if s.registers.V6 < r2 then 1 else s.registers.VF } }
  | .V7 => { s with registers := { s.registers with
      V7 := (s.registers.V7 + 256 - r2) % 256,
      VF := if s.registers.V7 < r2 then 1 else s.registers.VF } }
  | .V8 => { s with registers := { s.registers with
      V8 := (s.registers.V8 + 256 - r2) % 256,
      VF := if s.registers.V8 < r2 then 1 else s.registers.VF } }
  | .V9 => { s with registers := { s.registers with
      V9 := (s.registers.V9 + 256 - r2) % 256,
      VF := if s.registers.V9 < r2 then 1 else s.registers.VF } }
  | .VA => { s with registers := { s.registers with
      VA := (s.registers.VA + 256 - r2) % 256,
      VF := if s.registers.VA < r2 then 1 else s.registers.VF } }
  | .VB => { s with registers := { s.registers with
      VB := (s.registers.VB + 256 - r2) % 256,
      VF := if s.registers.VB < r2 then 1 else s.registers.VF } }
  | .VC => { s with registers := { s.registers with
      VC := (s.registers.VC + 256 - r2) % 256,
      VF := if s.registers.VC < r2 then 1 else s.registers.VF } }
  | .VD => { s with registers := { s.registers with
      VD := (s.registers.VD + 256 - r2) % 256,
      VF := if s.registers.VD < r2 then 1 else s.registers.VF } }
  | .VE => { s with registers := { s.registers with
      VE := (s.registers.VE + 256 - r2) % 256,
      VF := if s.registers.VE < r2 then 1 else s.registers.VF } }
  | _ => s

/-- `CPU::SHFTR` (8XY6): unimplemented in the source (TODO). -/
def CPU.SHFTR (s : CPU) (_register1 _register2 : Target_Register) : CPU := s

/-- `CPU::SUBY` (8XY7): unimplemented in the source (TODO). -/
def CPU.SUBY (s : CPU) (_register1 _register2 : Target_Register) : CPU := s

/-- `CPU::SHFTL` (8XYE): unimplemented in the source (TODO). -/
def CPU.SHFTL (s : CPU) (_register1 _register2 : Target_Register) : CPU := s

/-- `CPU::SKRNEQ` (9XY0): skip when the two named registers differ;
both reads fall to 0 on the I and PC identifiers (source TODO). -/
def CPU.SKRNEQ (s : CPU) (register1 register2 : Target_Register) : CPU :=
  let r1 := readV s register1
  let r2 := readV s register2
  if r1 ≠ r2 then
    { s with registers := { s.registers with PC := (s.registers.PC + 2) % 65536 } }
  else s

/-- `CPU::SETI` (ANNN): I := value. -/
def CPU.SETI (s : CPU) (value : Nat) : CPU :=
  { s with registers := { s.registers with I := value } }

/-- `CPU::JMP0` (BNNN): unimplemented in the source — the body is only
the TODO comment `PC = address + V0 register`, so the state is
returned unchanged. -/
def CPU.JMP0 (s : CPU) (_address : Nat) : CPU := s

/-- `CPU::RAND` (CXNN): mask an externally supplied random byte with
the immediate and store it through SET; the `random()` collaborator is
passed in as `rnd`. -/
def CPU.RAND (s : CPU) (register : Target_Register) (value : Nat) (rnd : Nat) : CPU :=
  let number := rnd % 256 &&& value
  CPU.SET s register number

/-- `CPU::DRAW` (DXYN): unimplemented in the source (TODO). -/
def CPU.DRAW (s : CPU) (_register1 _register2 : Target_Register) (_height : Nat) : CPU := s

/-- `CPU::SKKEQ` (EX9E): unimplemented in the source (TODO). -/
def CPU.SKKEQ (s : CPU) (_register : Target_Register) : CPU := s

/-- `CPU::SKKNEQ` (EXA1): unimplemented in the source (TODO). -/
def CPU.SKKNEQ (s : CPU) (_register : Target_Register) : CPU := s

/-- `CPU::SETXD` (FX07): copy the delay timer into the named register;
VF, I and PC fall to the no-op catch-all (source TODO). -/
def CPU.SETXD (s : CPU) (register : Target_Register) : CPU :=
  match register with
  | .V0 => { s with registers := { s.registers with V0 := s.timers.delay } }
  | .V1 => { s with registers := { s.registers with V1 := s.timers.delay } }
  | .V2 => { s with registers := { s.registers with V2 := s.timers.delay } }
  | .V3 => { s with registers := { s.registers with V3 := s.timers.delay } }
  | .V4 => { s with registers := { s.registers with V4 := s.timers.delay } }
  | .V5 => { s with registers := { s.registers with V5 := s.timers.delay } }
  | .V6 => { s with registers := { s.registers with V6 := s.timers.delay } }
  | .V7 => { s with registers := { s.registers with V7 := s.timers.delay } }
  | .V8 => { s with registers := { s.registers with V8 := s.timers.delay } }
  | .V9 => { s with registers := { s.registers with V9 := s.timers.delay } }
  | .VA => { s with registers := { s.registers with VA := s.timers.delay } }
  | .VB => { s with registers := { s.registers with VB := s.timers.delay } }
  | .VC => { s with registers := { s.registers with VC := s.timers.delay } }
  | .VD => { s with registers := { s.registers with VD := s.timers.delay } }
  | .VE => { s with registers := { s.registers with VE := s.timers.delay } }
  | _ => s

/-- `CPU::STORE` (FX0A): unimplemented in the source (TODO). -/
def CPU.STORE (s : CPU) (_register : Target_Register) : CPU := s

/-- `CPU::SETD` (FX15): delay timer := named register, V0..VE arms only
(everything else falls to 0, a source TODO). -/
def CPU.SETD (s : CPU) (register : Target_Register) : CPU :=
  { s with timers := { s.timers with delay := readVnoVF s register } }

/-- `CPU::SETS` (FX18): sound timer := named register, V0..VE arms only
(everything else falls to 0, a source TODO). -/
def CPU.SETS (s : CPU) (register : Target_Register) : CPU :=
  { s with timers := { s.timers with sound := readVnoVF s register } }

/-- `CPU::ADDI` (FX1E): add the named register into I with the plain
u16 `+=` (modelled modulo 65536); the I and PC arms add those registers
themselves. -/
def CPU.ADDI (s : CPU) (register : Target_Register) : CPU :=
  match register with
  | .V0 => { s with registers := { s.registers with I := (s.registers.I + s.registers.V0) % 65536 } }
  | .V1 => { s with registers := { s.registers with I := (s.registers.I + s.registers.V1) % 65536 } }
  | .V2 => { s with registers := { s.registers with I := (s.registers.I + s.registers.V2) % 65536 } }
  | .V3 => { s with registers := { s.registers with I := (s.registers.I + s.registers.V3) % 65536 } }
  | .V4 => { s with registers := { s.registers with I := (s.registers.I + s.registers.V4) % 65536 } }
  | .V5 => { s with registers := { s.registers with I := (s.registers.I + s.registers.V5) % 65536 } }
  | .V6 => { s with registers := { s.registers with I := (s.registers.I + s.registers.V6) % 65536 } }
  | .V7 => { s with registers := { s.registers with I := (s.registers.I + s.registers.V7) % 65536 } }
  | .V8 => { s with registers := { s.registers with I := (s.registers.I + s.registers.V8) % 65536 } }
  | .V9 => { s with registers := { s.registers with I := (s.registers.I + s.registers.V9) % 65536 } }
  | .VA => { s with registers := { s.registers with I := (s.registers.I + s.registers.VA) % 65536 } }
  | .VB => { s with registers := { s.registers with I := (s.registers.I + s.registers.VB) % 65536 } }
  | .VC => { s with registers := { s.registers with I := (s.registers.I + s.registers.VC) % 65536 } }
  | .VD => { s with registers := { s.registers with I := (s.registers.I + s.registers.VD) % 65536 } }
  | .VE => { s with registers := { s.registers with I := (s.registers.I + s.registers.VE) % 65536 } }
  | .VF => { s with registers := { s.registers with I := (s.registers.I + s.registers.VF) % 65536 } }
  | .I => { s with registers := { s.registers with I := (s.registers.I + s.registers.I) % 65536 } }
  | .PC => { s with registers := { s.registers with I := (s.registers.I + s.registers.PC) % 65536 } }

/-- `CPU::SPRITE` (FX29): unimplemented in the source (TODO). -/
def CPU.SPRITE (s : CPU) (_register : Target_Register) : CPU := s

/-- `CPU::BCD` (FX33): unimplemented in the source (TODO). -/
def CPU.BCD (s : CPU) (_register : Target_Register) : CPU := s

/-- `CPU::DUMP` (FX55): unimplemented in the source (TODO). -/
def CPU.DUMP (s : CPU) (_register : Target_Register) : CPU := s

/-- `CPU::LOAD` (FX65): unimplemented in the source (TODO). -/
def CPU.LOAD (s : CPU) (_register : Target_Register) : CPU := s

/-- `CPU::execute`: dispatch one decoded instruction to its handler.
The only fallible handler is Return (unwrap panic on an empty stack);
RAND threads the external random byte through. -/
def execute (s : CPU) (instruction : Instruction) (rnd : Nat) : Option CPU :=
  match instruction with
  | .NOP => some s
  | .CallNative a => some (CPU.CallNative s a)
  | .Display => some (CPU.Display s)
  | .Return => CPU.Return s
  | .JUMP a => some (CPU.JUMP s a)
  | .Call a => some (CPU.Call s a)
  | .SKEQ r v => some (CPU.SKEQ s r v)
  | .SKNEQ r v => some (CPU.SKNEQ s r v)
  | .SKREQ r1 r2 => some (CPU.SKREQ s r1 r2)
  | .SET r v => some (CPU.SET s r v)
  | .ADD r v => some (CPU.ADD s r v)
  | .COPYR r1 r2 => some (CPU.COPYR s r1 r2)
  | .OR r1 r2 => some (CPU.OR s r1 r2)
  | .AND r1 r2 => some (CPU.AND s r1 r2)
  | .XOR r1 r2 => some (CPU.XOR s r1 r2)
  | .ADDR r1 r2 => some (CPU.ADDR s r1 r2)
  | .SUBX r1 r2 => some (CPU.SUBX s r1 r2)
  | .SHFTR r1 r2 => some (CPU.SHFTR s r1 r2)
  | .SUBY r1 r2 => some (CPU.SUBY s r1 r2)
  | .SHFTL r1 r2 => some (CPU.SHFTL s r1 r2)
  | .SKRNEQ r1 r2 => some (CPU.SKRNEQ s r1 r2)
  | .SETI v => some (CPU.SETI s v)
  | .JMP0 a => some (CPU.JMP0 s a)
  | .RAND r v => some (CPU.RAND s r v rnd)
  | .DRAW r1 r2 h => some (CPU.DRAW s r1 r2 h)
  | .SKKEQ r => some (CPU.SKKEQ s r)
  | .SKKNEQ r => some (CPU.SKKNEQ s r)
  | .SETXD r => some (CPU.SETXD s r)
  | .STORE r => some (CPU.STORE s r)
  | .SETD r => some (CPU.SETD s r)
  | .SETS r => some (CPU.SETS s r)
  | .ADDI r => some (CPU.ADDI s r)
  | .SPRITE r => some (CPU.SPRITE s r)
  | .BCD r => some (CPU.BCD s r)
  | .DUMP r => some (CPU.DUMP s r)
  | .LOAD r => some (CPU.LOAD s r)

/-- `CPU::cycle`: fetch, decode, execute. none is a fetch-time index
panic or an execute-time unwrap panic. -/
def cycle (s : CPU) (rnd : Nat) : Option CPU :=
  match fetch_instruction s with
  | none => none
  | some (opcode, s1) => execute s1 (parse_opcode opcode) rnd

/-- Writing a block of bytes succeeds whenever it fits in memory. -/
lemma storeBytes_isSome (bytes : List Nat) (mem : List Nat) (addr : Nat)
    (h : addr + bytes.length ≤ mem.length) : (storeBytes mem addr bytes).isSome = true := by
  induction bytes generalizing mem addr with
  | nil => simp [storeBytes]
  | cons b rest ih =>
    have hlen : rest.length + 1 = (b :: rest).length := by simp
    have hlt : addr < mem.length := by simp at h; omega
    simp only [storeBytes, if_pos hlt]
    exact ih (mem.set addr b) (addr + 1) (by simp at h ⊢; omega)

/-- Writing a nonempty block of bytes that does not fit in memory hits
the out-of-bounds index (the modelled panic). -/
lemma storeBytes_eq_none (bytes : List Nat) (mem : List Nat) (addr : Nat)
    (h : mem.length < addr + bytes.length) (hne : bytes ≠ []) :
    storeBytes mem addr bytes = none := by
  induction bytes generalizing mem addr with
  | nil => exact absurd rfl hne
  | cons b rest ih =>
    simp only [storeBytes]
    by_cases hlt : addr < mem.length
    · rw [if_pos hlt]
      cases rest with
      | nil => simp at h; omega
      | cons c cs =>
        exact ih (mem.set addr b) (addr + 1) (by simp at h ⊢; omega) (by simp)
    · rw [if_neg hlt]

/-- Loading succeeds exactly when the byte copy into memory does. -/
lemma load_rom_isSome (s : CPU) (rom : List Nat) :
    (load_rom s rom).isSome = (storeBytes s.memory 0x200 rom).isSome := by
  unfold load_rom
  cases storeBytes s.memory 0x200 rom <;> rfl

/-- Loading panics (none) when the byte copy does. -/
lemma load_rom_none (s : CPU) (rom : List Nat)
    (h : storeBytes s.memory 0x200 rom = none) : load_rom s rom = none := by
  unfold load_rom
  rw [h]

/-- The power-on memory has exactly 4096 cells. -/
lemma new_memory_length : CPU.new.memory.length = 4096 := by
  rw [show CPU.new.memory = List.replicate 4096 0 from rfl, List.length_replicate]

/-- C1. The spec demands an explicit decode failure carrying the
offending word for any 16-bit word matching no decoder pattern; the
source instead logs and returns the preset default `JUMP 0x200`, and
its Instruction enum has no failure variant at all. Three unmatched
words (one in family 0x0, one in family 0x8, one in family 0xE) all
decode to the same default jump, silently substituting it for the
unmatched word. -/
theorem c1_unmatched_word_decodes_to_default_jump :
    parse_opcode 0x0001 = Instruction.JUMP 0x200
    ∧ parse_opcode 0x8008 = Instruction.JUMP 0x200
    ∧ parse_opcode 0xE000 = Instruction.JUMP 0x200 := by
  refine ⟨rfl, rfl, rfl⟩

/-- C2. Executing Return with an empty call stack does not produce a
StackUnderflow error value: the source unwraps `Vec::pop()` and
panics, modelled here as none (an unrecoverable crash, not a surfaced
error). -/
theorem c2_return_on_empty_stack_panics :
    CPU.Return { CPU.new with stack := [] } = none := rfl

/-- C4. From a freshly powered-on machine with PC already advanced to
0x202 by fetch, Call(0x300) followed by Return leaves PC = 0x202 as the
claim states, but leaves the stack at depth 16, not 0: `CPU::new`
builds the stack as sixteen zero entries, so the Call/Return pair only
returns to that power-on depth. -/
theorem c4_call_return_restores_pc_but_depth_sixteen :
    (CPU.Return
        (CPU.Call
          { CPU.new with registers := { CPU.new.registers with PC := 0x202 } }
          0x300)).map (fun t => (t.registers.PC, t.stack.length))
      = some (0x202, 16) := by
  rfl

/-- C5. `load_rom` performs no size check: an image of exactly
4096 − 0x200 = 3584 bytes is stored successfully, but an image one byte
larger runs the copy loop past the end of memory and panics on the
out-of-bounds write (modelled as none) — there is no ProgramTooLarge
error value, and the panic happens only after the first 3584 bytes have
already been written. -/
theorem c5_rom_size_boundary :
    (load_rom CPU.new (List.replicate 3584 0xAB)).isSome = true
    ∧ load_rom CPU.new (List.replicate 3585 0xAB) = none := by
  constructor
  · rw [load_rom_isSome]
    exact storeBytes_isSome _ _ _
      (by rw [List.length_replicate, new_memory_length])
  · exact load_rom_none _ _
      (storeBytes_eq_none _ _ _
        (by rw [List.length_replicate, new_memory_length]; decide)
        (by
          intro h
          have h2 := congrArg List.length h
          rw [List.length_replicate, List.length_nil] at h2
          exact absurd h2 (by decide)))

/-- C8. JumpPlusV0 (opcode BNNN) is claimed to set PC to the address
plus V0; the source's `CPU::JMP0` body is only a TODO comment, so the
machine state is returned completely unchanged — in particular PC never
receives addr + V0. -/
theorem c8_jmp0_leaves_state_unchanged :
    ∀ (s : CPU) (address : Nat), CPU.JMP0 s address = s :=
  fun _ _ => rfl

/-- C9 counterexample. After a reinitialize the delay timer keeps its
prior value: starting from a machine whose delay timer is 5, the
reinitialized machine still has delay = 5, not the claimed 0. -/
theorem c9_counterexample_timer_survives_reinit :
    (initMachine
        { CPU.new with timers := { delay := 5, sound := 7 } }).timers.delay = 5
    ∧ (5 : Nat) ≠ 0 := by
  exact ⟨rfl, by decide⟩

/-- C9 amended. After a reinitialize, the register file, memory and
stack are in the same state as at power-on (all registers zero, memory
all zeros, stack sixteen zero entries), and at power-on both timers are
zero; but the TimerBank is not reset by reinitialize — both timers keep
whatever values they had before it. -/
theorem c9_reinit_resets_all_but_timers (s : CPU) :
    (initMachine s).registers = Registers.new
    ∧ (initMachine s).memory = CPU.new.memory
    ∧ (initMachine s).stack = CPU.new.stack
    ∧ (initMachine s).timers = s.timers
    ∧ CPU.new.timers = Timers.new := by
  refine ⟨?_, rfl, rfl, rfl, rfl⟩
  simp only [initMachine, Nat.xor_self]
  rfl

/-- C10. At power-on (and again after reinitialize) the call stack is
not empty: it holds exactly sixteen entries, each 0. Return before any
Call therefore succeeds, popping a 0 into PC; and a Call from the
power-on state pushes a seventeenth entry with no StackOverflow error
(`CPU.Call` is total — the source's `Vec::push` cannot fail). -/
theorem c10_power_on_stack_is_sixteen_zeros :
    CPU.new.stack = List.replicate 16 0
    ∧ (∀ s : CPU, (initMachine s).stack = List.replicate 16 0)
    ∧ (CPU.Return CPU.new).map (fun t => (t.registers.PC, t.stack.length))
        = some (0, 15)
    ∧ (∀ address : Nat, (CPU.Call CPU.new address).stack.length = 17) := by
  refine ⟨rfl, fun s => rfl, rfl, fun address => ?_⟩
  rw [show (CPU.Call CPU.new address).stack
      = List.replicate 16 0 ++ [CPU.new.registers.PC] from rfl]
  simp

/-- On the general registers, the source's catch-all read agrees with
the total register valuation. -/
lemma readV_eq_regVal (s : CPU) (t : Target_Register)
    (h1 : t ≠ Target_Register.I) (h2 : t ≠ Target_Register.PC) :
    readV s t = regVal s.registers t := by
  cases t <;> first | rfl | exact absurd rfl h1 | exact absurd rfl h2

/-- C3. AddWithCarry (8XY4): for every destination among V0..VE, every
general source register and every prior carry-flag value, the
destination becomes the 8-bit wrapping sum and VF becomes 1 exactly
when the addition overflowed, otherwise VF keeps its prior value. -/
theorem c3_addr_add_with_carry (s : CPU) (d sr : Target_Register)
    (hd : d ≠ Target_Register.VF ∧ d ≠ Target_Register.I ∧ d ≠ Target_Register.PC)
    (hsr : sr ≠ Target_Register.I ∧ sr ≠ Target_Register.PC) :
    regVal (CPU.ADDR s d sr).registers d
        = (regVal s.registers d + regVal s.registers sr) % 256
    ∧ (CPU.ADDR s d sr).registers.VF
        = (if 256 ≤ regVal s.registers d + regVal s.registers sr then 1
            else s.registers.VF) := by
  obtain ⟨hd1, hd2, hd3⟩ := hd
  obtain ⟨hs1, hs2⟩ := hsr
  cases d
  case VF => exact absurd rfl hd1
  case I => exact absurd rfl hd2
  case PC => exact absurd rfl hd3
  all_goals
    refine ⟨?_, ?_⟩ <;>
      simp only [CPU.ADDR, readV_eq_regVal s sr hs1 hs2, regVal]

/-- Witness state for C3: V0 = 0xFF, V1 = 0x01 (overflowing case). -/
def addrStateA : CPU :=
  { CPU.new with registers := { Registers.new with V0 := 0xFF, V1 := 0x01 } }

/-- Witness state for C3: V0 = 0x01, V1 = 0x01, prior VF = 0x2A
(non-overflowing case, so VF must stay 0x2A). -/
def addrStateB : CPU :=
  { CPU.new with registers := { Registers.new with V0 := 0x01, V1 := 0x01, VF := 0x2A } }

/-- C3 witness: both concrete instances named by the claim, obtained by
instantiating the AddWithCarry theorem. -/
theorem c3_addr_witness :
    regVal (CPU.ADDR addrStateA .V0 .V1).registers .V0 = 0x00
    ∧ (CPU.ADDR addrStateA .V0 .V1).registers.VF = 1
    ∧ regVal (CPU.ADDR addrStateB .V0 .V1).registers .V0 = 0x02
    ∧ (CPU.ADDR addrStateB .V0 .V1).registers.VF = 0x2A := by
  have hA := c3_addr_add_with_carry addrStateA .V0 .V1
    ⟨by decide, by decide, by decide⟩ ⟨by decide, by decide⟩
  have hB := c3_addr_add_with_carry addrStateB .V0 .V1
    ⟨by decide, by decide, by decide⟩ ⟨by decide, by decide⟩
  exact ⟨hA.1.trans (by decide), hA.2.trans (by decide),
    hB.1.trans (by decide), hB.2.trans (by decide)⟩

/-- C7. AddImmediate (7XNN): adding b and then (256 − b) mod 256 to any
general register returns it to its original 8-bit value; moreover, when
the target register is not VF itself, a single AddImmediate execution —
whatever the state it runs on and whatever its immediate, so in
particular each of the two executions of the pair — never modifies the
carry-flag register VF. -/
theorem c7_add_immediate_closure (s : CPU) (r : Target_Register) (b : Nat)
    (hr : r ≠ Target_Register.I ∧ r ≠ Target_Register.PC)
    (ha : regVal s.registers r < 256) (hb : b < 256) :
    regVal (CPU.ADD (CPU.ADD s r b) r ((256 - b) % 256)).registers r
        = regVal s.registers r
    ∧ (r ≠ Target_Register.VF →
        ∀ (t : CPU) (v : Nat), (CPU.ADD t r v).registers.VF = t.registers.VF) := by
  obtain ⟨h1, h2⟩ := hr
  cases r
  case I => exact absurd rfl h1
  case PC => exact absurd rfl h2
  case VF =>
    refine ⟨?_, fun hvf => absurd rfl hvf⟩
    simp only [CPU.ADD, regVal] at ha ⊢
    omega
  all_goals
    (refine ⟨?_, fun _ t v => rfl⟩;
      simp only [CPU.ADD, regVal] at ha ⊢; omega)

/-- Witness state for C7: V2 = 0xAB with a nonzero VF to observe. -/
def addState : CPU :=
  { CPU.new with registers := { Registers.new with V2 := 0xAB, VF := 0x11 } }

/-- C7 witness: adding 0x33 and then 0xCD to V2 = 0xAB returns V2 to
0xAB, and each of the two AddImmediate executions separately leaves VF
exactly as it found it. -/
theorem c7_add_witness :
    regVal (CPU.ADD (CPU.ADD addState .V2 0x33) .V2 ((256 - 0x33) % 256)).registers .V2
        = regVal addState.registers .V2
    ∧ (CPU.ADD addState .V2 0x33).registers.VF = addState.registers.VF
    ∧ (CPU.ADD (CPU.ADD addState .V2 0x33) .V2 ((256 - 0x33) % 256)).registers.VF
        = (CPU.ADD addState .V2 0x33).registers.VF := by
  have h := c7_add_immediate_closure addState .V2 0x33
    ⟨by decide, by decide⟩ (by decide) (by decide)
  exact ⟨h.1, h.2 (by decide) addState 0x33,
    h.2 (by decide) (CPU.ADD addState .V2 0x33) ((256 - 0x33) % 256)⟩

/-- A boolean written as `if p then true else false` (the source's
comparison style) is true exactly when p holds. -/
lemma if_tf (p : Prop) [Decidable p] : ((if p then true else false) = true) ↔ p := by
  by_cases h : p <;> simp [h]

/-- A register nibble below 16 never decodes to the I or PC
identifier. -/
lemma u8_gen (x : Nat) (hx : x < 16) :
    Target_Register.u8_to_register x ≠ Target_Register.I
    ∧ Target_Register.u8_to_register x ≠ Target_Register.PC := by
  interval_cases x <;> exact ⟨by decide, by decide⟩

/-- Overwriting PC does not change the value of any other register. -/
lemma regVal_set_pc (r : Registers) (p : Nat) (t : Target_Register)
    (h : t ≠ Target_Register.PC) :
    regVal { r with PC := p } t = regVal r t := by
  cases t <;> first | rfl | exact absurd rfl h

/-- Reading the two instruction bytes at PC: the fetched word is the
big-endian combination and PC advances by 2. -/
lemma fetch_eq (s : CPU) (b1 b2 : Nat)
    (hpc : s.registers.PC + 1 < 65536)
    (h1 : s.memory.get? s.registers.PC = some b1)
    (h2 : s.memory.get? (s.registers.PC + 1) = some b2) :
    fetch_instruction s
      = some (b1 % 256 * 256 + b2 % 256,
          { s with registers := { s.registers with PC := (s.registers.PC + 2) % 65536 } }) := by
  have hm : (s.registers.PC + 1) % 65536 = s.registers.PC + 1 := Nat.mod_eq_of_lt hpc
  have ha : s.registers.PC + 1 + 1 = s.registers.PC + 2 := by omega
  simp only [fetch_instruction, hm, h1, h2, ha]

/-- Family 0x3 words decode to SKEQ over the X nibble and the low
byte. -/
lemma parse_skeq (b1 b2 : Nat) (_hb1 : b1 < 256) (hb2 : b2 < 256) (hf : b1 / 16 = 3) :
    parse_opcode (b1 * 256 + b2)
      = Instruction.SKEQ (Target_Register.u8_to_register (b1 % 16)) b2 := by
  have hfam : (b1 * 256 + b2) / 4096 % 16 = 3 := by omega
  have hx : (b1 * 256 + b2) / 256 % 16 = b1 % 16 := by omega
  have hnn : (b1 * 256 + b2) % 256 = b2 := by omega
  simp [parse_opcode, hfam, hx, hnn]

/-- Family 0x4 words decode to SKNEQ over the X nibble and the low
byte. -/
lemma parse_skneq (b1 b2 : Nat) (_hb1 : b1 < 256) (hb2 : b2 < 256) (hf : b1 / 16 = 4) :
    parse_opcode (b1 * 256 + b2)
      = Instruction.SKNEQ (Target_Register.u8_to_register (b1 % 16)) b2 := by
  have hfam : (b1 * 256 + b2) / 4096 % 16 = 4 := by omega
  have hx : (b1 * 256 + b2) / 256 % 16 = b1 % 16 := by omega
  have hnn : (b1 * 256 + b2) % 256 = b2 := by omega
  simp [parse_opcode, hfam, hx, hnn]

/-- Family 0x5 words decode to SKREQ over the X and Y nibbles (the
source matches the whole family, whatever the low nibble). -/
lemma parse_skreq (b1 b2 : Nat) (_hb1 : b1 < 256) (hb2 : b2 < 256) (hf : b1 / 16 = 5) :
    parse_opcode (b1 * 256 + b2)
      = Instruction.SKREQ (Target_Register.u8_to_register (b1 % 16))
          (Target_Register.u8_to_register (b2 / 16)) := by
  have hfam : (b1 * 256 + b2) / 4096 % 16 = 5 := by omega
  have hx : (b1 * 256 + b2) / 256 % 16 = b1 % 16 := by omega
  have hy : (b1 * 256 + b2) / 16 % 16 = b2 / 16 := by omega
  simp [parse_opcode, hfam, hx, hy]

/-- Family 0x9 words decode to SKRNEQ over the X and Y nibbles. -/
lemma parse_skrneq (b1 b2 : Nat) (_hb1 : b1 < 256) (hb2 : b2 < 256) (hf : b1 / 16 = 9) :
    parse_opcode (b1 * 256 + b2)
      = Instruction.SKRNEQ (Target_Register.u8_to_register (b1 % 16))
          (Target_Register.u8_to_register (b2 / 16)) := by
  have hfam : (b1 * 256 + b2) / 4096 % 16 = 9 := by omega
  have hx : (b1 * 256 + b2) / 256 % 16 = b1 % 16 := by omega
  have hy : (b1 * 256 + b2) / 16 % 16 = b2 / 16 := by omega
  simp [parse_opcode, hfam, hx, hy]

/-- SKEQ on a general register bumps PC by 2 exactly when the register
equals the immediate. -/
lemma SKEQ_pc (s : CPU) (t : Target_Register) (v : Nat)
    (h1 : t ≠ Target_Register.I) (h2 : t ≠ Target_Register.PC) :
    CPU.SKEQ s t v
      = if regVal s.registers t = v
        then { s with registers := { s.registers with PC := (s.registers.PC + 2) % 65536 } }
        else s := by
  cases t
  case I => exact absurd rfl h1
  case PC => exact absurd rfl h2
  all_goals simp only [CPU.SKEQ, regVal, if_tf]

/-- SKNEQ on a general register bumps PC by 2 exactly when the register
differs from the immediate. -/
lemma SKNEQ_pc (s : CPU) (t : Target_Register) (v : Nat)
    (h1 : t ≠ Target_Register.I) (h2 : t ≠ Target_Register.PC) :
    CPU.SKNEQ s t v
      = if regVal s.registers t ≠ v
        then { s with registers := { s.registers with PC := (s.registers.PC + 2) % 65536 } }
        else s := by
  cases t
  case I => exact absurd rfl h1
  case PC => exact absurd rfl h2
  all_goals simp only [CPU.SKNEQ, regVal, if_tf]

/-- SKREQ on general registers bumps PC by 2 exactly when the two
registers are equal. -/
lemma SKREQ_pc (s : CPU) (t1 t2 : Target_Register)
    (ha1 : t1 ≠ Target_Register.I) (ha2 : t1 ≠ Target_Register.PC)
    (hb1 : t2 ≠ Target_Register.I) (hb2 : t2 ≠ Target_Register.PC) :
    CPU.SKREQ s t1 t2
      = if regVal s.registers t1 = regVal s.registers t2
        then { s with registers := { s.registers with PC := (s.registers.PC + 2) % 65536 } }
        else s := by
  simp only [CPU.SKREQ, readV_eq_regVal s t1 ha1 ha2, readV_eq_regVal s t2 hb1 hb2]

/-- SKRNEQ on general registers bumps PC by 2 exactly when the two
registers differ. -/
lemma SKRNEQ_pc (s : CPU) (t1 t2 : Target_Register)
    (ha1 : t1 ≠ Target_Register.I) (ha2 : t1 ≠ Target_Register.PC)
    (hb1 : t2 ≠ Target_Register.I) (hb2 : t2 ≠ Target_Register.PC) :
    CPU.SKRNEQ s t1 t2
      = if regVal s.registers t1 ≠ regVal s.registers t2
        then { s with registers := { s.registers with PC := (s.registers.PC + 2) % 65536 } }
        else s := by
  simp only [CPU.SKRNEQ, readV_eq_regVal s t1 ha1 ha2, readV_eq_regVal s t2 hb1 hb2]

/-- C6. Every skip instruction run through a full fetch/decode/execute
cycle advances PC by exactly 4 when its condition holds (2 from fetch
plus 2 from the skip) and by exactly 2 when it does not: the four
conjuncts cover the 3XNN (SkipIfEqual), 4XNN (SkipIfNotEqual),
5XYZ (SkipIfRegistersEqual) and 9XYZ (SkipIfRegistersNotEqual) opcode
families, for every machine state whose PC stays inside the 4096-byte
address space and every instruction word with the given family
nibble. -/
theorem c6_skip_cycle_pc_advance (s : CPU) (rnd b1 b2 : Nat)
    (hpc : s.registers.PC + 1 < 4096)
    (h1 : s.memory.get? s.registers.PC = some b1)
    (h2 : s.memory.get? (s.registers.PC + 1) = some b2)
    (hb1 : b1 < 256) (hb2 : b2 < 256) :
    (b1 / 16 = 3 →
      (cycle s rnd).map (fun t => t.registers.PC)
        = some (if regVal s.registers (Target_Register.u8_to_register (b1 % 16)) = b2
                then s.registers.PC + 4 else s.registers.PC + 2))
    ∧ (b1 / 16 = 4 →
      (cycle s rnd).map (fun t => t.registers.PC)
        = some (if regVal s.registers (Target_Register.u8_to_register (b1 % 16)) ≠ b2
                then s.registers.PC + 4 else s.registers.PC + 2))
    ∧ (b1 / 16 = 5 →
      (cycle s rnd).map (fun t => t.registers.PC)
        = some (if regVal s.registers (Target_Register.u8_to_register (b1 % 16))
                  = regVal s.registers (Target_Register.u8_to_register (b2 / 16))
                then s.registers.PC + 4 else s.registers.PC + 2))
    ∧ (b1 / 16 = 9 →
      (cycle s rnd).map (fun t => t.registers.PC)
        = some (if regVal s.registers (Target_Register.u8_to_register (b1 % 16))
                  ≠ regVal s.registers (Target_Register.u8_to_register (b2 / 16))
                then s.registers.PC + 4 else s.registers.PC + 2)) := by
  have hm1 : b1 % 256 = b1 := Nat.mod_eq_of_lt hb1
  have hm2 : b2 % 256 = b2 := Nat.mod_eq_of_lt hb2
  have hfetch := fetch_eq s b1 b2 (by omega) h1 h2
  rw [hm1, hm2] at hfetch
  obtain ⟨hxi, hxp⟩ := u8_gen (b1 % 16) (by omega)
  obtain ⟨hyi, hyp⟩ := u8_gen (b2 / 16) (by omega)
  have hregx : regVal ({ s with registers :=
        { s.registers with PC := (s.registers.PC + 2) % 65536 } }).registers
        (Target_Register.u8_to_register (b1 % 16))
      = regVal s.registers (Target_Register.u8_to_register (b1 % 16)) :=
    regVal_set_pc s.registers _ _ hxp
  have hregy : regVal ({ s with registers :=
        { s.registers with PC := (s.registers.PC + 2) % 65536 } }).registers
        (Target_Register.u8_to_register (b2 / 16))
      = regVal s.registers (Target_Register.u8_to_register (b2 / 16)) :=
    regVal_set_pc s.registers _ _ hyp
  refine ⟨?_, ?_, ?_, ?_⟩
  · intro hf
    have hcy : cycle s rnd
        = some (CPU.SKEQ
            { s with registers := { s.registers with PC := (s.registers.PC + 2) % 65536 } }
            (Target_Register.u8_to_register (b1 % 16)) b2) := by
      simp only [cycle, hfetch, parse_skeq b1 b2 hb1 hb2 hf, execute]
    rw [hcy, SKEQ_pc _ _ _ hxi hxp, hregx, Option.map_some']
    by_cases hc : regVal s.registers (Target_Register.u8_to_register (b1 % 16)) = b2
    · rw [if_pos hc, if_pos hc]
      refine congrArg some ?_
      show ((s.registers.PC + 2) % 65536 + 2) % 65536 = s.registers.PC + 4
      omega
    · rw [if_neg hc, if_neg hc]
      refine congrArg some ?_
      show (s.registers.PC + 2) % 65536 = s.registers.PC + 2
      omega
  · intro hf
    have hcy : cycle s rnd
        = some (CPU.SKNEQ
            { s with registers := { s.registers with PC := (s.registers.PC + 2) % 65536 } }
            (Target_Register.u8_to_register (b1 % 16)) b2) := by
      simp only [cycle, hfetch, parse_skneq b1 b2 hb1 hb2 hf, execute]
    rw [hcy, SKNEQ_pc _ _ _ hxi hxp, hregx, Option.map_some']
    by_cases hc : regVal s.registers (Target_Register.u8_to_register (b1 % 16)) ≠ b2
    · rw [if_pos hc, if_pos hc]
      refine congrArg some ?_
      show ((s.registers.PC + 2) % 65536 + 2) % 65536 = s.registers.PC + 4
      omega
    · rw [if_neg hc, if_neg hc]
      refine congrArg some ?_
      show (s.registers.PC + 2) % 65536 = s.registers.PC + 2
      omega
  · intro hf
    have hcy : cycle s rnd
        = some (CPU.SKREQ
            { s with registers := { s.registers with PC := (s.registers.PC + 2) % 65536 } }
            (Target_Register.u8_to_register (b1 % 16))
            (Target_Register.u8_to_register (b2 / 16))) := by
      simp only [cycle, hfetch, parse_skreq b1 b2 hb1 hb2 hf, execute]
    rw [hcy, SKREQ_pc _ _ _ hxi hxp hyi hyp, hregx, hregy, Option.map_some']
    by_cases hc : regVal s.registers (Target_Register.u8_to_register (b1 % 16))
        = regVal s.registers (Target_Register.u8_to_register (b2 / 16))
    · rw [if_pos hc, if_pos hc]
      refine congrArg some ?_
      show ((s.registers.PC + 2) % 65536 + 2) % 65536 = s.registers.PC + 4
      omega
    · rw [if_neg hc, if_neg hc]
      refine congrArg some ?_
      show (s.registers.PC + 2) % 65536 = s.registers.PC + 2
      omega
  · intro hf
    have hcy : cycle s rnd
        = some (CPU.SKRNEQ
            { s with registers := { s.registers with PC := (s.registers.PC + 2) % 65536 } }
            (Target_Register.u8_to_register (b1 % 16))
            (Target_Register.u8_to_register (b2 / 16))) := by
      simp only [cycle, hfetch, parse_skrneq b1 b2 hb1 hb2 hf, execute]
    rw [hcy, SKRNEQ_pc _ _ _ hxi hxp hyi hyp, hregx, hregy, Option.map_some']
    by_cases hc : regVal s.registers (Target_Register.u8_to_register (b1 % 16))
        ≠ regVal s.registers (Target_Register.u8_to_register (b2 / 16))
    · rw [if_pos hc, if_pos hc]
      refine congrArg some ?_
      show ((s.registers.PC + 2) % 65536 + 2) % 65536 = s.registers.PC + 4
      omega
    · rw [if_neg hc, if_neg hc]
      refine congrArg some ?_
      show (s.registers.PC + 2) % 65536 = s.registers.PC + 2
      omega

/-- Witness state for C6: PC = 0, memory holding the single word 0x3005
(SkipIfEqual V0, 0x05) and V0 = 5, so the skip condition holds. -/
def skipState : CPU :=
  { CPU.new with
    registers := { Registers.new with V0 := 5 },
    memory := [0x30, 0x05] }

/-- C6 witness: one full cycle on the word 0x3005 with V0 = 5 advances
PC from 0 to 4 (2 from fetch plus 2 from the taken skip). -/
theorem c6_skip_witness :
    (cycle skipState 0).map (fun t => t.registers.PC) = some 4 := by
  have h := (c6_skip_cycle_pc_advance skipState 0 0x30 0x05 (by decide)
      (by decide) (by decide) (by decide) (by decide)).1 (by decide)
  exact h.trans (by decide)

end Chip8
